import Mathlib

/-
Verification development for the GenerateMCD module (src/GenerateMCD.py).

The module is a thin wrapper around a vendor .NET toolkit.  We embed it
shallowly:

* JSON documents (read with `json.load`, written with `json.dump`) are an
  inductive `JVal`; Python `dict`s become association lists that mirror
  Python's insertion-order semantics (assignment to a present key keeps its
  position, assignment to a fresh key appends).
* The filesystem is an association list from path strings to typed file
  contents; serialisation round-trips (json.dump then json.load,
  WriteToFile then ReadFromFile) are modelled as identity on the value.
* The opaque vendor calls (`ConvertToMcd`, `ConvertToJson`,
  `CalculateParameters`) are a record of functions, each returning its
  primary result together with the warning strings it appends to the
  `List[String]` out-parameter.
* Exceptions become an explicit `Except PyError` result; every operation
  also returns the state (filesystem plus a log of external invocations)
  reached at the moment it returns or raises.
-/

set_option autoImplicit false

namespace GenerateMCD

/-- JSON values, as produced by Python's `json.load`.  Numbers are modelled
as integers; none of the code under verification computes with numeric
fields. -/
inductive JVal where
  | null : JVal
  | bool : Bool → JVal
  | num : Int → JVal
  | str : String → JVal
  | arr : List JVal → JVal
  | obj : List (String × JVal) → JVal

/-- First-match association-list lookup, i.e. Python `dict.get` /
`dict.__getitem__` on a dict whose entries are listed in insertion order. -/
def pyLookup {κ α : Type} [BEq κ] : List (κ × α) → κ → Option α
  | [], _ => none
  | (k, v) :: rest, k' => if k == k' then some v else pyLookup rest k'

/-- Python `d[k] = v`: if the key is present its first binding is replaced in
place, otherwise the pair is appended at the end (insertion order). -/
def pyDictSet {κ α : Type} [BEq κ] : List (κ × α) → κ → α → List (κ × α)
  | [], k, v => [(k, v)]
  | (k0, v0) :: rest, k, v =>
    if k0 == k then (k0, v) :: rest else (k0, v0) :: pyDictSet rest k v

/-- Python `d.update(other)`: assign each of `other`'s pairs in order. -/
def pyDictUpdate {κ α : Type} [BEq κ] (d : List (κ × α)) (other : List (κ × α)) :
    List (κ × α) :=
  other.foldl (fun acc p => pyDictSet acc p.1 p.2) d

/-- Python truthiness of a JSON value (`if x:`). -/
def truthy : JVal → Bool
  | .null => false
  | .bool b => b
  | .num n => n != 0
  | .str s => s != ""
  | .arr xs => !xs.isEmpty
  | .obj fs => !fs.isEmpty

/-- Truthiness of an optional value (`if x:` where `x` may be `None`). -/
def truthyOpt : Option JVal → Bool
  | none => false
  | some v => truthy v

/-- Truthiness of an optional string parameter (`None` and `""` are falsy). -/
def truthyStr : Option String → Bool
  | none => false
  | some s => s != ""

/-- Python renders `None` as the string "None" inside an f-string; any other
optional string renders as itself. -/
def fmtPy : Option String → String
  | none => "None"
  | some s => s

/-- `str.split('.')`, written on the character list so that it reduces by
structural recursion (`"".split('.') = [""]`, `"a.b".split('.') = ["a","b"]`). -/
def splitDotAux : List Char → List Char → List String
  | [], acc => [String.mk acc.reverse]
  | c :: cs, acc =>
    if c = '.' then String.mk acc.reverse :: splitDotAux cs []
    else splitDotAux cs (c :: acc)

/-- `s.split('.')` for a Python string. -/
def splitDot (s : String) : List String :=
  splitDotAux s.toList []

/-- Numeric value of a list of decimal digits. -/
def digitsVal : List Char → Nat
  | [] => 0
  | c :: cs => List.foldl (fun a d => a * 10 + (d.toNat - 48)) (c.toNat - 48) cs

/-- Value of a nonempty all-digit character list, `none` otherwise. -/
def digitsToNat (l : List Char) : Option Nat :=
  if l ≠ [] ∧ l.all Char.isDigit then some (digitsVal l) else none

/-- Python's `int(s)` on a decimal string with an optional sign, as an
`Option` (a parse failure raises in Python).  Python additionally strips
surrounding whitespace and permits underscores between digits; neither is
exercised by the version strings this module handles. -/
def pyInt (s : String) : Option Int :=
  match s.toList with
  | '-' :: rest => (digitsToNat rest).map (fun n => -(n : Int))
  | '+' :: rest => (digitsToNat rest).map (fun n => (n : Int))
  | l => (digitsToNat l).map (fun n => (n : Int))

/-- Python `str.isdigit()` (restricted to ASCII digits, the only characters
appearing in version-directory names). -/
def strIsDigit (s : String) : Bool :=
  !s.toList.isEmpty && s.toList.all Char.isDigit

/-- The nested helper `is_version_supported` of `_read_mcd_from_file`
(src/GenerateMCD.py lines 241-249): split on dots, parse the first field as
`major` and the second (0 when absent) as `minor`; any exception yields
`False`; accept iff `major > 2` or (`major == 2` and `minor >= 11`). -/
def is_version_supported (ver_str : String) : Bool :=
  match splitDot ver_str with
  | [] => false
  | p0 :: rest =>
    match pyInt p0 with
    | none => false
    | some major =>
      match (match rest with | [] => some (0 : Int) | p1 :: _ => pyInt p1) with
      | none => false
      | some minor => decide (major > 2) || (decide (major = 2) && decide (minor ≥ 11))

/-- The major field of a version string: the text before the first dot. -/
def majorField (v : String) : String :=
  (splitDot v).headD ""

/-- The minor field of a version string, `"0"` when there is no second
field (the code's `minor` default). -/
def minorField (v : String) : String :=
  match splitDot v with
  | _ :: p1 :: _ => p1
  | _ => "0"

/-- The acceptance predicate exactly as the specification words it: the
version string parses as dot-separated numbers (every dot-separated field
is numeric) and the leading major/minor pair satisfies `major > 2` or
`major = 2 ∧ minor ≥ 11` (minor defaulting to 0 when absent). -/
def specVersionOk (v : String) : Bool :=
  let parts := splitDot v
  parts.all (fun p => (pyInt p).isSome) &&
    (match parts with
     | [] => false
     | p0 :: rest =>
       match pyInt p0,
         (match rest with | [] => some (0 : Int) | p1 :: _ => pyInt p1) with
       | some major, some minor =>
         decide (major > 2) || (decide (major = 2) && decide (minor ≥ 11))
       | _, _ => false)

/-- Python exceptions raised by the module, tagged with their class and
message.  Distinct constructors are distinct exception classes. -/
inductive PyError where
  | runtimeError : String → PyError
  | fileNotFoundError : String → PyError
  | keyError : String → PyError
  | typeError : String → PyError
  | attributeError : String → PyError
  | nameError : String → PyError
deriving DecidableEq

/-- The error `_check_initialized` raises (src/GenerateMCD.py line 172). -/
def notInitializedError : PyError :=
  .runtimeError "Controller has not been initialized. Please call controller.initialize() first."

/-- One entry of an MCD object's `ConfigurationFiles` collection: a `Key`
and a `Value` file-data object, either of which may be null. -/
structure ConfigEntry where
  key : Option String
  value : Option (Option (List Nat))
deriving DecidableEq

/-- An opaque vendor `MachineControllerDefinition` object, exposing the two
members the module reads: `SoftwareVersion` and `ConfigurationFiles` (each
entry's `Value` carries an optional `Content` byte array). -/
structure McdObj where
  softwareVersion : String
  configurationFiles : Option (List ConfigEntry)
deriving DecidableEq

/-- Typed file contents: JSON documents (written by `json.dump`, read by
`json.load`/`JObject.Parse`), MCD files (written by `WriteToFile`, read by
`ReadFromFile`) and plain text output.  Serialisation round-trips are
modelled as identity on the stored value. -/
inductive FileContent where
  | jsonFile : JVal → FileContent
  | mcdFile : McdObj → FileContent
  | textFile : String → FileContent

/-- The filesystem: association list from path to content.  A path is
present exactly when `os.path.exists` is true for it. -/
def FS : Type := List (String × FileContent)

/-- Write (create or overwrite) a file, keeping directory-listing order. -/
def fsWrite (fs : FS) (p : String) (c : FileContent) : FS :=
  pyDictSet fs p c

/-- Read a file if it exists. -/
def fsLookup (fs : FS) (p : String) : Option FileContent :=
  pyLookup fs p

/-- One invocation of the vendor toolkit through reflection. -/
inductive ExtCall where
  | readFromFile : String → ExtCall
  | convertToMcd : ExtCall
  | convertToJson : ExtCall
  | calculateParameters : ExtCall
deriving DecidableEq

/-- The mutable world an operation acts on: the filesystem and the log of
vendor invocations made so far. -/
structure St where
  fs : FS
  calls : List ExtCall

/-- The behaviour of the opaque vendor calls: each returns its primary
result together with the warning strings it adds to the `List[String]`
out-parameter it is given (which is always freshly created empty). -/
structure Vendor where
  convertToMcd : JVal → McdObj × List String
  convertToJson : McdObj → String × List String
  calculateParameters : McdObj → McdObj × List String

/-- `os.path.join` (separator written `/`; the concrete separator character
is irrelevant to every property below). -/
def pathJoin (a b : String) : String := a ++ "/" ++ b

/-- The state of one `AerotechController` as far as the verified operations
consult it: the `initialized` flag, the optional `mcd_name` given to the
constructor, the working directory, and the template / working-document
paths computed in `__init__`. -/
structure Session where
  initialized : Bool
  mcd_name : Option String
  working_dir : String
  template_path : String
  working_json_path : String

/-- `_check_initialized` (src/GenerateMCD.py lines 164-172). -/
def _check_initialized (s : Session) : Except PyError Unit :=
  if s.initialized then .ok () else .error notInitializedError

/-- `_update_json_config` (src/GenerateMCD.py lines 174-213): load the
template, require a truthy `MechanicalProducts`, merge `specs_dict` into the
first product's `ConfiguredOptions` (creating it when absent), apply the
optional stage-type and axis names, and write the working document.
Shapes the Python code would crash on (a non-array `MechanicalProducts`, a
non-dict first product, …) are mapped to the corresponding exception
constructors. -/
def _update_json_config (s : Session) (specs_dict : List (String × JVal))
    (stage_type axis : Option String) (st : St) : Except PyError Unit × St :=
  match fsLookup st.fs s.template_path with
  | none => (.error (.fileNotFoundError ("No such file or directory: " ++ s.template_path)), st)
  | some (.mcdFile _) => (.error (.typeError "json.load: not a JSON document"), st)
  | some (.textFile _) => (.error (.typeError "json.load: not a JSON document"), st)
  | some (.jsonFile data) =>
    match data with
    | .obj fields =>
      let mp := pyLookup fields "MechanicalProducts"
      if truthyOpt mp then
        match mp with
        | some (.arr (p0 :: ps)) =>
          match p0 with
          | .obj pf =>
            let co := pyLookup pf "ConfiguredOptions"
            match (match co with
                   | none => some (pyDictUpdate [] specs_dict)
                   | some (.obj cof) => some (pyDictUpdate cof specs_dict)
                   | some _ => none) with
            | none => (.error (.attributeError "update is not an attribute of ConfiguredOptions"), st)
            | some newOpts =>
              let pf1 := pyDictSet pf "ConfiguredOptions" (.obj newOpts)
              let pf2 := if truthyStr stage_type then
                  pyDictSet (pyDictSet pf1 "Name" (.str (fmtPy stage_type)))
                    "DisplayName" (.str (fmtPy stage_type))
                else pf1
              let fields1 := pyDictSet fields "MechanicalProducts" (.arr (.obj pf2 :: ps))
              match pyLookup fields1 "InterconnectedAxes" with
              | some (.arr (a0 :: as)) =>
                match a0 with
                | .obj af =>
                  let af1 := if truthyStr axis then pyDictSet af "Name" (.str (fmtPy axis)) else af
                  match (if truthyStr stage_type then
                           match pyLookup af1 "MechanicalAxis" with
                           | some (.obj mf) =>
                             some (pyDictSet af1 "MechanicalAxis"
                               (.obj (pyDictSet mf "DisplayName" (.str (fmtPy stage_type)))))
                           | some _ => none
                           | none => some af1
                         else some af1) with
                  | none => (.error (.typeError "MechanicalAxis does not support item assignment"), st)
                  | some af2 =>
                    let fields2 := pyDictSet fields1 "InterconnectedAxes" (.arr (.obj af2 :: as))
                    (.ok (), ⟨fsWrite st.fs s.working_json_path (.jsonFile (.obj fields2)), st.calls⟩)
                | _ =>
                  if truthyStr axis || truthyStr stage_type then
                    (.error (.typeError "first interconnected axis does not support item assignment"), st)
                  else
                    let fields2 := fields1
                    (.ok (), ⟨fsWrite st.fs s.working_json_path (.jsonFile (.obj fields2)), st.calls⟩)
              | some (.arr []) =>
                (.ok (), ⟨fsWrite st.fs s.working_json_path (.jsonFile (.obj fields1)), st.calls⟩)
              | none =>
                (.ok (), ⟨fsWrite st.fs s.working_json_path (.jsonFile (.obj fields1)), st.calls⟩)
              | some v =>
                if truthy v then (.error (.typeError "InterconnectedAxes is not subscriptable"), st)
                else (.ok (), ⟨fsWrite st.fs s.working_json_path (.jsonFile (.obj fields1)), st.calls⟩)
          | _ => (.error (.attributeError "setdefault is not an attribute of the first mechanical product"), st)
        | some _ => (.error (.typeError "MechanicalProducts is not a list of products"), st)
        | none => (.error (.typeError "MechanicalProducts is not a list of products"), st)
      else (.error (.keyError "MechanicalProducts not found in JSON."), st)
    | _ => (.error (.attributeError "get is not an attribute of the template document"), st)

/-- `_read_mcd_from_file` (src/GenerateMCD.py lines 215-262): require
initialization, require the file to exist, invoke the vendor `ReadFromFile`,
then gate on `is_version_supported` applied to the object's
`SoftwareVersion`. -/
def _read_mcd_from_file (s : Session) (mcd_path : String) (st : St) :
    Except PyError McdObj × St :=
  match _check_initialized s with
  | .error e => (.error e, st)
  | .ok _ =>
    match fsLookup st.fs mcd_path with
    | none => (.error (.fileNotFoundError ("MCD file not found at: " ++ mcd_path)), st)
    | some c =>
      let st1 : St := ⟨st.fs, st.calls ++ [.readFromFile mcd_path]⟩
      match c with
      | .mcdFile m =>
        if is_version_supported m.softwareVersion then (.ok m, st1)
        else (.error (.runtimeError ("Unsupported Automation1 version: " ++ m.softwareVersion)), st1)
      | _ => (.error (.runtimeError "ReadFromFile: file is not a machine controller definition"), st1)

/-- `convert_to_mcd` (src/GenerateMCD.py lines 264-310): require
initialization; when `specs_dict` is truthy, update and re-read the working
document, otherwise read `<working_dir>/<stage_type>.json`; invoke the
vendor conversion; write the object to `Uncalculated_<stage_type>.mcd`
(`Uncalculated_<mcd_name>.mcd` when a name was supplied); return the object,
the path and the conversion warnings. -/
def convert_to_mcd (s : Session) (v : Vendor) (specs_dict : Option (List (String × JVal)))
    (stage_type axis : Option String) (st : St) :
    Except PyError (McdObj × String × List String) × St :=
  match _check_initialized s with
  | .error e => (.error e, st)
  | .ok _ =>
    match ((match specs_dict with
           | some (sp0 :: sps) =>
             match _update_json_config s (sp0 :: sps) stage_type axis st with
             | (.error e, st1) => (.error e, st1)
             | (.ok _, st1) =>
               match fsLookup st1.fs s.working_json_path with
               | some (.jsonFile j) => (.ok j, st1)
               | some _ => (.error (.typeError "JObject.Parse: not a JSON document"), st1)
               | none => (.error (.fileNotFoundError ("No such file or directory: " ++ s.working_json_path)), st1)
           | _ =>
             let full_mcd_json := pathJoin s.working_dir (fmtPy stage_type ++ ".json")
             match fsLookup st.fs full_mcd_json with
             | some (.jsonFile j) => (.ok j, st)
             | some _ => (.error (.typeError "JObject.Parse: not a JSON document"), st)
             | none => (.error (.fileNotFoundError ("No such file or directory: " ++ full_mcd_json)), st)) :
          Except PyError JVal × St) with
    | (.error e, st1) => ((.error e : Except PyError (McdObj × String × List String)), st1)
    | (.ok jobject, st1) =>
      let r := v.convertToMcd jobject
      let st2 : St := ⟨st1.fs, st1.calls ++ [.convertToMcd]⟩
      let mcd_path := match s.mcd_name with
        | none => pathJoin s.working_dir ("Uncalculated_" ++ fmtPy stage_type ++ ".mcd")
        | some n => pathJoin s.working_dir ("Uncalculated_" ++ n ++ ".mcd")
      (.ok (r.1, mcd_path, r.2), ⟨fsWrite st2.fs mcd_path (.mcdFile r.1), st2.calls⟩)

/-- `convert_to_json` (src/GenerateMCD.py lines 325-352): require
initialization, read the MCD through the version gate, invoke the vendor
JSON conversion, write its textual result to the output path, return the
warnings. -/
def convert_to_json (s : Session) (v : Vendor) (mcd_path output_json_path : String)
    (st : St) : Except PyError (List String) × St :=
  match _check_initialized s with
  | .error e => (.error e, st)
  | .ok _ =>
    match _read_mcd_from_file s mcd_path st with
    | (.error e, st1) => (.error e, st1)
    | (.ok m, st1) =>
      let r := v.convertToJson m
      let st2 : St := ⟨st1.fs, st1.calls ++ [.convertToJson]⟩
      (.ok r.2, ⟨fsWrite st2.fs output_json_path (.textFile r.1), st2.calls⟩)

/-- `calculate_parameters` (src/GenerateMCD.py lines 354-397).  Note that
the local `mcd_path` is only assigned when `mcd_name is None`; evaluating it
in `calculated_mcd.WriteToFile(mcd_path)` with `mcd_name` set raises an
unbound-local error, after the conversion and calculation steps have already
run. -/
def calculate_parameters (s : Session) (v : Vendor)
    (specs_dict : Option (List (String × JVal))) (stage_type axis : Option String)
    (st : St) : Except PyError (McdObj × List String × String) × St :=
  let mcd_path_opt : Option String := match s.mcd_name with
    | none => some (pathJoin s.working_dir ("Calculated_" ++ fmtPy stage_type ++ ".mcd"))
    | some _ => none
  match _check_initialized s with
  | .error e => (.error e, st)
  | .ok _ =>
    match convert_to_mcd s v specs_dict stage_type axis st with
    | (.error e, st1) => (.error e, st1)
    | (.ok conv, st1) =>
      let r := v.calculateParameters conv.1
      let st2 : St := ⟨st1.fs, st1.calls ++ [.calculateParameters]⟩
      match mcd_path_opt with
      | none => (.error (.nameError "local variable mcd_path referenced before assignment"), st2)
      | some p =>
        (.ok (r.1, conv.2.2 ++ r.2, p), ⟨fsWrite st2.fs p (.mcdFile r.1), st2.calls⟩)

/-- `calculate_from_current_mcd` (src/GenerateMCD.py lines 399-429): read
the existing MCD through the version gate (which also performs the
initialization check), invoke the vendor calculation, and — only when
`mcd_name is None` — write the result to `Recalculated.mcd` and return that
path; otherwise the input path is returned unchanged and nothing is
written. -/
def calculate_from_current_mcd (s : Session) (v : Vendor) (mcd_path : String)
    (st : St) : Except PyError (McdObj × String × List String) × St :=
  match _read_mcd_from_file s mcd_path st with
  | (.error e, st1) => (.error e, st1)
  | (.ok m, st1) =>
    let r := v.calculateParameters m
    let st2 : St := ⟨st1.fs, st1.calls ++ [.calculateParameters]⟩
    match s.mcd_name with
    | none =>
      let p := pathJoin s.working_dir "Recalculated.mcd"
      (.ok (r.1, p, r.2), ⟨fsWrite st2.fs p (.mcdFile r.1), st2.calls⟩)
    | some _ => (.ok (r.1, mcd_path, r.2), st2)

/-- An XML element as `xml.etree.ElementTree` presents it: tag, attribute
dictionary, text (None for an empty element) and child elements. -/
inductive Elem where
  | mk : String → List (String × String) → Option String → List Elem → Elem

/-- The element's tag. -/
def Elem.tag : Elem → String
  | .mk t _ _ _ => t

/-- The element's attribute dictionary (`elem.attrib`). -/
def Elem.attrs : Elem → List (String × String)
  | .mk _ a _ _ => a

/-- The element's text (`elem.text`). -/
def Elem.text : Elem → Option String
  | .mk _ _ x _ => x

/-- The element's direct children. -/
def Elem.children : Elem → List Elem
  | .mk _ _ _ cs => cs

/-- All strict descendants of the elements of a list, each element followed
by its own descendants (document order). -/
def descendantsList : List Elem → List Elem
  | [] => []
  | .mk t a x cs :: rest => .mk t a x cs :: (descendantsList cs ++ descendantsList rest)

/-- `root.findall('.//Axes/Axis')`: every `Axes` descendant of the root in
document order, and for each its `Axis` children in order. -/
def axisElemsOf (root : Elem) : List Elem :=
  ((descendantsList root.children).filter (fun e => e.tag == "Axes")).flatMap
    (fun ax => ax.children.filter (fun c => c.tag == "Axis"))

/-- `attrib.get(k, dflt)`. -/
def attrGet (attrs : List (String × String)) (k dflt : String) : String :=
  match pyLookup attrs k with
  | some v => v
  | none => dflt

/-- `axis_elem.attrib.get('Index')` (may be absent, hence `None`). -/
def axIndex (ax : Elem) : Option String :=
  pyLookup ax.attrs "Index"

/-- Python `s.startswith(pre)`. -/
def strStartsWith (s pre : String) : Bool :=
  pre.toList.isPrefixOf s.toList

/-- One extracted parameter record `{'name': ..., 'value': p.text}`. -/
structure XmlParam where
  name : String
  value : Option String
deriving DecidableEq

/-- The parameters the servo-loop extractor keeps from one `Axis` element:
its `P` children whose `n` attribute (default `''`) starts with
`ServoLoop`, in document order. -/
def servoParamsOfAxis (ax : Elem) : List XmlParam :=
  (ax.children.filter (fun c => c.tag == "P")).filterMap (fun p =>
    let param_name := attrGet p.attrs "n" ""
    if strStartsWith param_name "ServoLoop" then some ⟨param_name, p.text⟩ else none)

/-- The parameters the feedforward extractor keeps from one `Axis` element:
its `P` children whose `n` attribute (default `''`) starts with
`Feedforward`, in document order. -/
def ffParamsOfAxis (ax : Elem) : List XmlParam :=
  (ax.children.filter (fun c => c.tag == "P")).filterMap (fun p =>
    let param_name := attrGet p.attrs "n" ""
    if strStartsWith param_name "Feedforward" then some ⟨param_name, p.text⟩ else none)

/-- The dictionary built by `extract_servo_loop_parameters_from_xml` from a
parsed document: iterate the found axes, and for each axis whose matching
parameter list is nonempty assign it under the axis `Index`. -/
def servoDictOf (root : Elem) : List (Option String × List XmlParam) :=
  (axisElemsOf root).foldl (fun d ax =>
    let params := servoParamsOfAxis ax
    if params.isEmpty then d else pyDictSet d (axIndex ax) params) []

/-- The dictionary built by `extract_feedforward_parameters_from_xml` from a
parsed document. -/
def ffDictOf (root : Elem) : List (Option String × List XmlParam) :=
  (axisElemsOf root).foldl (fun d ax =>
    let params := ffParamsOfAxis ax
    if params.isEmpty then d else pyDictSet d (axIndex ax) params) []

/-- `extract_servo_loop_parameters_from_xml` (src/GenerateMCD.py lines
492-517).  `ET.fromstring` is the vendor XML parser, passed in as
`fromstring`; a parse failure raises, which the embedding surfaces as
`.error`. -/
def extract_servo_loop_parameters_from_xml (fromstring : String → Except String Elem)
    (xml_text : String) : Except String (List (Option String × List XmlParam)) :=
  match fromstring xml_text with
  | .error e => .error e
  | .ok root => .ok (servoDictOf root)

/-- `extract_feedforward_parameters_from_xml` (src/GenerateMCD.py lines
519-544). -/
def extract_feedforward_parameters_from_xml (fromstring : String → Except String Elem)
    (xml_text : String) : Except String (List (Option String × List XmlParam)) :=
  match fromstring xml_text with
  | .error e => .error e
  | .ok root => .ok (ffDictOf root)

/-- Specification-side view for the extraction claim: all matching
servo-loop parameter pairs of the axis elements carrying index `i`, in
document order. -/
def servoPairsAt (root : Elem) (i : Option String) : List XmlParam :=
  ((axisElemsOf root).filter (fun ax => axIndex ax == i)).flatMap servoParamsOfAxis

/-- Specification-side view: all matching feedforward parameter pairs of
the axis elements carrying index `i`, in document order. -/
def ffPairsAt (root : Elem) (i : Option String) : List XmlParam :=
  ((axisElemsOf root).filter (fun ax => axIndex ax == i)).flatMap ffParamsOfAxis

/-- The value left in `parameters_filedata` after the `ConfigurationFiles`
loop of `inspect_mcd_object`: the `Value` of the last entry whose `Key` is
`"Parameters"` (the variable is overwritten on every match), flattened with
the never-assigned case since both read back as `None`. -/
def lastParametersValue (items : List ConfigEntry) : Option (Option (List Nat)) :=
  items.foldl (fun acc it => if it.key == some "Parameters" then it.value else acc) none

/-- `inspect_mcd_object` (src/GenerateMCD.py lines 431-490): locate the
`Parameters` entry of `ConfigurationFiles`, take its `Content` bytes,
decode as UTF-8 and run both extractors; every failure path (missing
collection, missing entry, null content, decode error, XML parse error —
the latter two raise inside the `try` and are caught) prints a notice and
falls through to return `None`.  `utf8Decode` abstracts
`bytes.decode('utf-8')`, `fromstring` abstracts `ET.fromstring`. -/
def inspect_mcd_object (fromstring : String → Except String Elem)
    (utf8Decode : List Nat → Except String String) (obj : McdObj) :
    Option (List (Option String × List XmlParam) × List (Option String × List XmlParam)) :=
  match obj.configurationFiles with
  | none => none
  | some items =>
    match lastParametersValue items with
    | none => none
    | some none => none
    | some (some content_bytes) =>
      match utf8Decode content_bytes with
      | .error _ => none
      | .ok text =>
        match extract_servo_loop_parameters_from_xml fromstring text with
        | .error _ => none
        | .ok servo_params =>
          match extract_feedforward_parameters_from_xml fromstring text with
          | .error _ => none
          | .ok feedforward_params => some (servo_params, feedforward_params)

/-- `int(x)` on an all-digit string, as used by the sort-key fallback. -/
def strToNat (s : String) : Nat :=
  digitsVal s.toList

/-- The fallback sort key `version_tuple` of `AerotechController.__init__`
(src/GenerateMCD.py lines 83-84): the integer values of the dot-separated
fields that are all-digit, in order. -/
def version_tuple (v : String) : List Nat :=
  ((splitDot v).filter strIsDigit).map strToNat

/-- Remove trailing zero components. -/
def stripZeros : List Nat → List Nat
  | [] => []
  | a :: as =>
    match stripZeros as with
    | [] => if a = 0 then [] else [a]
    | b :: bs => a :: b :: bs

/-- Modelled from the spec: `packaging.version.Version` is an external
library (not part of this repository).  On a well-formed dot-separated
numeric string it parses to a release tuple, and release tuples compare
numerically with trailing zero components disregarded (`2.1` equals
`2.1.0`).  This key realises that ordering through `lexGt` below. -/
def packagingKey (v : String) : List Nat :=
  stripZeros ((splitDot v).map strToNat)

/-- Strict lexicographic greater-than on numeric tuples (a strict prefix is
smaller, matching Python tuple comparison). -/
def lexGt : List Nat → List Nat → Bool
  | [], _ => false
  | _ :: _, [] => true
  | a :: as, b :: bs => if b < a then true else if a < b then false else lexGt as bs

/-- The name in position 0 after `sort(key=K, reverse=True)`: Python's sort
is stable and `reverse=True` keeps equal-key names in their original order,
so position 0 holds the first name whose key is maximal.  `gt` is the
strict key comparison. -/
def selectLatest (gt : String → String → Bool) : List String → Option String
  | [] => none
  | n :: rest => some (rest.foldl (fun best x => if gt x best then x else best) n)

/-- The latest-version choice under `packaging.version` sorting. -/
def latestByPackaging (names : List String) : Option String :=
  selectLatest (fun x y => lexGt (packagingKey x) (packagingKey y)) names

/-- The latest-version choice under the fallback `version_tuple` sorting. -/
def latestByTuple (names : List String) : Option String :=
  selectLatest (fun x y => lexGt (version_tuple x) (version_tuple y)) names

/-- A well-formed dot-separated numeric name: every dot-separated field is
nonempty and all digits. -/
def wellFormedVersion (s : String) : Bool :=
  (splitDot s).all strIsDigit

/-- The fields of the working document on disk, when it holds a JSON
object. -/
def workingFields (s : Session) (st : St) : Option (List (String × JVal)) :=
  match fsLookup st.fs s.working_json_path with
  | some (.jsonFile (.obj fields)) => some fields
  | _ => none

/-- Field lookup through an optional field list. -/
def jLook (o : Option (List (String × JVal))) (k : String) : Option JVal :=
  match o with
  | some fields => pyLookup fields k
  | none => none

/-- The key sequence of an optional field list. -/
def jKeys (o : Option (List (String × JVal))) : Option (List String) :=
  match o with
  | some fields => some (fields.map Prod.fst)
  | none => none

/-- The field list of the first mechanical product of a document. -/
def firstProductFields (o : Option (List (String × JVal))) : Option (List (String × JVal)) :=
  match jLook o "MechanicalProducts" with
  | some (.arr (.obj pf :: _)) => some pf
  | _ => none

/-- The mechanical products after the first. -/
def productsTail (o : Option (List (String × JVal))) : Option (List JVal) :=
  match jLook o "MechanicalProducts" with
  | some (.arr (_ :: ps)) => some ps
  | _ => none

/-- The field list of the first interconnected axis of a document. -/
def firstAxisFields (o : Option (List (String × JVal))) : Option (List (String × JVal)) :=
  match jLook o "InterconnectedAxes" with
  | some (.arr (.obj af :: _)) => some af
  | _ => none

/-- The interconnected axes after the first. -/
def axesTail (o : Option (List (String × JVal))) : Option (List JVal) :=
  match jLook o "InterconnectedAxes" with
  | some (.arr (_ :: tl)) => some tl
  | _ => none

/-- The field list of the first interconnected axis's `MechanicalAxis`. -/
def mechAxisFields (o : Option (List (String × JVal))) : Option (List (String × JVal)) :=
  match jLook (firstAxisFields o) "MechanicalAxis" with
  | some (.obj mf) => some mf
  | _ => none

/-- A session that has been initialized, with no custom `mcd_name`. -/
def sampleSession : Session :=
  ⟨true, none, "C:/work", "C:/assets/MS_Template.json", "C:/assets/WorkingTemplate.json"⟩

/-- A session on which `initialize()` has not run. -/
def uninitSession : Session :=
  ⟨false, none, "C:/work", "C:/assets/MS_Template.json", "C:/assets/WorkingTemplate.json"⟩

/-- An initialized session constructed with `mcd_name="Custom"`. -/
def namedSession : Session :=
  ⟨true, some "Custom", "C:/work", "C:/assets/MS_Template.json", "C:/assets/WorkingTemplate.json"⟩

/-- The empty world. -/
def emptySt : St := ⟨[], []⟩

/-- A vendor whose calls succeed with fixed outputs and no warnings apart
from one conversion warning and one calculation warning, so that warning
concatenation is observable. -/
def sampleVendor : Vendor :=
  ⟨fun _ => (⟨"2.11.0", none⟩, ["conv warning"]),
   fun _ => ("{}", []),
   fun m => (⟨m.softwareVersion, some []⟩, ["calc warning"])⟩

/-- A world holding one MCD file with unsupported embedded version 2.9. -/
def oldMcdSt : St := ⟨[("C:/work/old.mcd", .mcdFile ⟨"2.9", none⟩)], []⟩

/-- A world holding one MCD file with supported embedded version 2.11.0. -/
def goodMcdSt : St := ⟨[("C:/work/old.mcd", .mcdFile ⟨"2.11.0", none⟩)], []⟩

/-- A world holding a prepared `ANT95L.json` specs document. -/
def specsJsonSt : St := ⟨[("C:/work/ANT95L.json", .jsonFile (.obj []))], []⟩

/-- A UTF-8 decoder that always fails (non-text parameter content). -/
def badDecode : List Nat → Except String String := fun _ => .error "invalid utf-8"

/-- A UTF-8 decoder that always succeeds with a fixed text. -/
def okDecode : List Nat → Except String String := fun _ => .ok "<not xml"

/-- An XML parser that always fails (malformed parameter text). -/
def failParse : String → Except String Elem := fun _ => .error "syntax error"

/-- A calculated object whose `ConfigurationFiles` has a `Parameters` entry
with non-null content. -/
def paramObj : McdObj := ⟨"2.11.0", some [⟨some "Parameters", some (some [255, 0])⟩]⟩

/-- The first mechanical product's fields after `_update_json_config`:
`ConfiguredOptions` replaced by the merged options, and `Name`/`DisplayName`
set when a truthy stage type is supplied. -/
def productAfter (pf newOpts : List (String × JVal)) (stage_type : Option String) :
    List (String × JVal) :=
  let pf1 := pyDictSet pf "ConfiguredOptions" (.obj newOpts)
  if truthyStr stage_type then
    pyDictSet (pyDictSet pf1 "Name" (.str (fmtPy stage_type)))
      "DisplayName" (.str (fmtPy stage_type))
  else pf1

/-- The first interconnected axis's fields after `_update_json_config`:
`Name` set when a truthy axis is supplied, and the `MechanicalAxis`
object's `DisplayName` set when a truthy stage type is supplied (`mf` being
the original `MechanicalAxis` fields). -/
def axisAfter (af mf : List (String × JVal)) (stage_type axis : Option String) :
    List (String × JVal) :=
  let af1 := if truthyStr axis then pyDictSet af "Name" (.str (fmtPy axis)) else af
  if truthyStr stage_type then
    pyDictSet af1 "MechanicalAxis"
      (.obj (pyDictSet mf "DisplayName" (.str (fmtPy stage_type))))
  else af1

/-- A concrete template document of the standard shape. -/
def sampleTemplate : List (String × JVal) :=
  [("Version", .num 7),
   ("MechanicalProducts", .arr [
      .obj [("Name", .str "Template"), ("DisplayName", .str "Template"),
            ("ConfiguredOptions", .obj [("Travel", .str "-050MM"), ("Feedback", .str "-E1")])],
      .obj []]),
   ("InterconnectedAxes", .arr [
      .obj [("Name", .str "Axis1"),
            ("MechanicalAxis", .obj [("DisplayName", .str "Template"), ("Id", .num 1)])],
      .obj []])]

/-- A world holding the concrete template at the session's template path. -/
def templSt : St := ⟨[("C:/assets/MS_Template.json", .jsonFile (.obj sampleTemplate))], []⟩

/-- A synthetic parameter document: axes 0 and 1, with a mix of
`ServoLoopGain…`, `FeedforwardMass` and unrelated parameter names; axis 1
has no feedforward parameter. -/
def xmlRoot : Elem :=
  .mk "Machine" [] none [
    .mk "Axes" [] none [
      .mk "Axis" [("Index", "0")] none [
        .mk "P" [("n", "ServoLoopGainKp")] (some "1") [],
        .mk "P" [("n", "Other")] (some "9") [],
        .mk "P" [("n", "FeedforwardMass")] (some "3") []],
      .mk "Axis" [("Index", "1")] none [
        .mk "P" [("n", "ServoLoopGainKi")] (some "2") []]]]

/-- A parser that succeeds with the synthetic document. -/
def okParse : String → Except String Elem := fun _ => .ok xmlRoot

/-- A document in which two `Axis` elements carry the same `Index`, each
with one servo-loop parameter. -/
def dupRoot : Elem :=
  .mk "Root" [] none [
    .mk "Axes" [] none [
      .mk "Axis" [("Index", "0")] none [
        .mk "P" [("n", "ServoLoopGainKp")] (some "1") []],
      .mk "Axis" [("Index", "0")] none [
        .mk "P" [("n", "ServoLoopGainKi")] (some "2") []]]]

-- Theorems.

theorem pyLookup_pyDictSet_self {κ α : Type} [BEq κ] [LawfulBEq κ]
    (d : List (κ × α)) (k : κ) (v : α) :
    pyLookup (pyDictSet d k v) k = some v := by
  induction d with
  | nil => simp [pyDictSet, pyLookup]
  | cons p rest ih =>
    obtain ⟨k0, v0⟩ := p
    by_cases h : k0 = k
    · subst h
      simp [pyDictSet, pyLookup]
    · simp [pyDictSet, pyLookup, h, ih]

theorem pyLookup_pyDictSet_ne {κ α : Type} [BEq κ] [LawfulBEq κ]
    (d : List (κ × α)) (k k' : κ) (v : α) (h : k ≠ k') :
    pyLookup (pyDictSet d k v) k' = pyLookup d k' := by
  induction d with
  | nil => simp [pyDictSet, pyLookup, h]
  | cons p rest ih =>
    obtain ⟨k0, v0⟩ := p
    by_cases h0 : k0 = k
    · subst h0
      simp [pyDictSet, pyLookup, h]
    · simp [pyDictSet, pyLookup, h0, ih]

theorem pyLookup_mem_keys {κ α : Type} [BEq κ] [LawfulBEq κ]
    {d : List (κ × α)} {k : κ} {v : α} (h : pyLookup d k = some v) :
    k ∈ d.map Prod.fst := by
  induction d with
  | nil => simp [pyLookup] at h
  | cons p rest ih =>
    obtain ⟨k0, v0⟩ := p
    by_cases h0 : k0 = k
    · subst h0; simp
    · simp only [pyLookup, beq_iff_eq, h0, if_false] at h
      simp [ih h]

theorem pyLookup_eq_none_of_not_mem {κ α : Type} [BEq κ] [LawfulBEq κ]
    {d : List (κ × α)} {k : κ} (h : k ∉ d.map Prod.fst) :
    pyLookup d k = none := by
  induction d with
  | nil => simp [pyLookup]
  | cons p rest ih =>
    obtain ⟨k0, v0⟩ := p
    simp only [List.map_cons, List.mem_cons, not_or] at h
    have h0 : ¬k0 = k := fun hh => h.1 hh.symm
    simp [pyLookup, h0, ih h.2]

theorem keys_pyDictSet {κ α : Type} [BEq κ] [LawfulBEq κ]
    (d : List (κ × α)) (k : κ) (v : α) (h : pyLookup d k ≠ none) :
    (pyDictSet d k v).map Prod.fst = d.map Prod.fst := by
  induction d with
  | nil => simp [pyLookup] at h
  | cons p rest ih =>
    obtain ⟨k0, v0⟩ := p
    by_cases h0 : k0 = k
    · subst h0; simp [pyDictSet]
    · simp only [pyLookup, beq_iff_eq, h0, if_false] at h
      simp [pyDictSet, h0, ih h]

theorem pyLookup_pyDictUpdate {κ α : Type} [BEq κ] [LawfulBEq κ]
    (d other : List (κ × α)) (hnd : (other.map Prod.fst).Nodup) (k : κ) :
    pyLookup (pyDictUpdate d other) k =
      (pyLookup other k).elim (pyLookup d k) some := by
  induction other generalizing d with
  | nil => simp [pyDictUpdate, pyLookup]
  | cons p rest ih =>
    obtain ⟨k0, v0⟩ := p
    simp only [List.map_cons, List.nodup_cons] at hnd
    have step : pyDictUpdate d ((k0, v0) :: rest) = pyDictUpdate (pyDictSet d k0 v0) rest := rfl
    rw [step, ih (pyDictSet d k0 v0) hnd.2]
    by_cases h0 : k0 = k
    · subst h0
      have hrest : pyLookup rest k0 = none := pyLookup_eq_none_of_not_mem hnd.1
      simp [pyLookup, hrest, pyLookup_pyDictSet_self]
    · have hLook : pyLookup ((k0, v0) :: rest) k = pyLookup rest k := by
        simp [pyLookup, h0]
      rw [hLook]
      cases hr : pyLookup rest k with
      | some w => simp
      | none => simp [pyLookup_pyDictSet_ne d k0 k v0 h0]

/-- The not-initialized error differs from the unsupported-version error
for every detected version string. -/
theorem notInitialized_ne_unsupported (ver : String) :
    notInitializedError ≠ PyError.runtimeError ("Unsupported Automation1 version: " ++ ver) := by
  intro h
  simp only [notInitializedError, PyError.runtimeError.injEq] at h
  have h2 := congrArg String.data h
  rw [String.data_append] at h2
  have e1 : ("Controller has not been initialized. Please call controller.initialize() first." : String).data =
      'C' :: ("ontroller has not been initialized. Please call controller.initialize() first." : String).data := by
    decide
  have e2 : ("Unsupported Automation1 version: " : String).data =
      'U' :: ("nsupported Automation1 version: " : String).data := by
    decide
  rw [e1, e2] at h2
  simp at h2

/-- C3: on a session on which `initialize()` has not succeeded, each of the
four conversion/calculation operations fails with the not-initialized error
and leaves the world (filesystem and vendor-call log) untouched, and that
error is distinct from every other failure the module can raise: every
other exception class, and the unsupported-version `RuntimeError`, whose
message differs for every version string. -/
theorem not_initialized_blocks_all_operations
    (s : Session) (v : Vendor) (specs_dict : Option (List (String × JVal)))
    (stage_type axis : Option String) (p q : String) (st : St)
    (h : s.initialized = false) :
    convert_to_mcd s v specs_dict stage_type axis st = (.error notInitializedError, st) ∧
    convert_to_json s v p q st = (.error notInitializedError, st) ∧
    calculate_parameters s v specs_dict stage_type axis st = (.error notInitializedError, st) ∧
    calculate_from_current_mcd s v p st = (.error notInitializedError, st) ∧
    (∀ m, notInitializedError ≠ PyError.fileNotFoundError m) ∧
    (∀ m, notInitializedError ≠ PyError.keyError m) ∧
    (∀ m, notInitializedError ≠ PyError.typeError m) ∧
    (∀ m, notInitializedError ≠ PyError.attributeError m) ∧
    (∀ m, notInitializedError ≠ PyError.nameError m) ∧
    (∀ ver, notInitializedError ≠ PyError.runtimeError ("Unsupported Automation1 version: " ++ ver)) := by
  have hc : _check_initialized s = .error notInitializedError := by
    simp [_check_initialized, h]
  refine ⟨?_, ?_, ?_, ?_, ?_, ?_, ?_, ?_, ?_, notInitialized_ne_unsupported⟩
  · simp [convert_to_mcd, hc]
  · simp [convert_to_json, hc]
  · simp [calculate_parameters, hc]
  · simp [calculate_from_current_mcd, _read_mcd_from_file, hc]
  · intro m; simp [notInitializedError]
  · intro m; simp [notInitializedError]
  · intro m; simp [notInitializedError]
  · intro m; simp [notInitializedError]
  · intro m; simp [notInitializedError]

theorem not_initialized_blocks_all_operations_witness :
    convert_to_mcd uninitSession sampleVendor none none none emptySt = (.error notInitializedError, emptySt) ∧
    calculate_parameters uninitSession sampleVendor none none none emptySt = (.error notInitializedError, emptySt) ∧
    calculate_from_current_mcd uninitSession sampleVendor "C:/work/in.mcd" emptySt = (.error notInitializedError, emptySt) ∧
    notInitializedError ≠ PyError.fileNotFoundError "MCD file not found at: C:/work/in.mcd" :=
  have h := not_initialized_blocks_all_operations uninitSession sampleVendor none
    none none "C:/work/in.mcd" "C:/work/out.json" emptySt rfl
  ⟨h.1, h.2.2.1, h.2.2.2.1, h.2.2.2.2.1 "MCD file not found at: C:/work/in.mcd"⟩

/-- C6 (counterexample): the code accepts `"2.11.beta"`, a string that does
not parse as dot-separated numbers, so "true iff the whole string parses as
dot-separated numbers with the stated major/minor bound" fails: only the
first two fields are ever parsed. -/
theorem version_support_spec_counterexample :
    is_version_supported "2.11.beta" = true ∧ specVersionOk "2.11.beta" = false := by
  constructor
  · decide
  · decide

/-- C6 (amended): `is_version_supported v` is true iff the first
dot-separated field parses as an integer `major` and the second field
(`"0"` when absent) parses as an integer `minor` with `major > 2`, or
`major = 2` and `minor ≥ 11`; a parse failure of either of those two
fields yields false.  Later fields are never examined. -/
theorem version_support_major_minor_only (v : String) :
    is_version_supported v = true ↔
      (∃ major minor : Int, pyInt (majorField v) = some major ∧
        pyInt (minorField v) = some minor ∧
        (2 < major ∨ (major = 2 ∧ 11 ≤ minor))) := by
  unfold is_version_supported majorField minorField
  cases hs : splitDot v with
  | nil =>
    have he : pyInt "" = none := by decide
    simp [he]
  | cons p0 rest =>
    cases rest with
    | nil =>
      simp only [List.headD_cons]
      cases hp : pyInt p0 with
      | none => simp
      | some major =>
        have h0 : pyInt "0" = some 0 := by decide
        simp only [h0, Option.some.injEq]
        constructor
        · intro hb
          refine ⟨major, 0, rfl, rfl, ?_⟩
          simpa using hb
        · rintro ⟨ma, mi, hma, hmi, hcond⟩
          cases hma
          cases hmi
          simpa using hcond
    | cons p1 rest' =>
      simp only [List.headD_cons]
      cases hp : pyInt p0 with
      | none => simp
      | some major =>
        cases hp1 : pyInt p1 with
        | none => simp
        | some minor =>
          simp only [Option.some.injEq]
          constructor
          · intro hb
            refine ⟨major, minor, rfl, rfl, ?_⟩
            simpa using hb
          · rintro ⟨ma, mi, hma, hmi, hcond⟩
            cases hma
            cases hmi
            simpa using hcond

/-- C10: when the template document has no truthy `MechanicalProducts`
section (absent, or present but empty), `_update_json_config` raises the
`KeyError` and the whole world — in particular the working document on
disk — is exactly as before: the error precedes the opening of the working
document for writing. -/
theorem update_json_config_missing_products_atomic
    (s : Session) (specs_dict : List (String × JVal)) (stage_type axis : Option String)
    (st : St) (tf : List (String × JVal))
    (hT : fsLookup st.fs s.template_path = some (.jsonFile (.obj tf)))
    (hMP : truthyOpt (pyLookup tf "MechanicalProducts") = false) :
    _update_json_config s specs_dict stage_type axis st =
      (.error (.keyError "MechanicalProducts not found in JSON."), st) := by
  unfold _update_json_config
  rw [hT]
  simp [hMP]

theorem update_json_config_missing_products_atomic_witness :
    _update_json_config sampleSession [("Travel", .str "-100MM")] (some "ANT95L") (some "X")
        ⟨[("C:/assets/MS_Template.json", .jsonFile (.obj [("MechanicalProducts", .arr [])]))], []⟩ =
      (.error (.keyError "MechanicalProducts not found in JSON."),
        ⟨[("C:/assets/MS_Template.json", .jsonFile (.obj [("MechanicalProducts", .arr [])]))], []⟩) :=
  update_json_config_missing_products_atomic sampleSession [("Travel", .str "-100MM")]
    (some "ANT95L") (some "X")
    ⟨[("C:/assets/MS_Template.json", .jsonFile (.obj [("MechanicalProducts", .arr [])]))], []⟩
    [("MechanicalProducts", .arr [])] rfl rfl

/-- C7: on an initialized session, (a) reading an existing configuration
file whose embedded software version is unsupported raises the
unsupported-version error right after the `ReadFromFile` invocation — the
calculation call is never invoked and the filesystem is untouched; and
(b) a non-existent input path raises the not-found error before any
external call, with the whole world untouched.  In both cases no output
file is written (the filesystem component is unchanged). -/
theorem read_gate_blocks_calculation
    (s : Session) (v : Vendor) (st : St) (p : String)
    (hinit : s.initialized = true) :
    (∀ m : McdObj, fsLookup st.fs p = some (.mcdFile m) →
      is_version_supported m.softwareVersion = false →
      calculate_from_current_mcd s v p st =
        (.error (.runtimeError ("Unsupported Automation1 version: " ++ m.softwareVersion)),
         ⟨st.fs, st.calls ++ [.readFromFile p]⟩)) ∧
    (fsLookup st.fs p = none →
      calculate_from_current_mcd s v p st =
        (.error (.fileNotFoundError ("MCD file not found at: " ++ p)), st)) := by
  constructor
  · intro m hfile hver
    unfold calculate_from_current_mcd _read_mcd_from_file _check_initialized
    rw [hinit]
    simp [hfile, hver]
  · intro hmiss
    unfold calculate_from_current_mcd _read_mcd_from_file _check_initialized
    rw [hinit]
    simp [hmiss]

theorem read_gate_blocks_calculation_witness :
    calculate_from_current_mcd sampleSession sampleVendor "C:/work/old.mcd" oldMcdSt =
      (.error (.runtimeError "Unsupported Automation1 version: 2.9"),
       ⟨oldMcdSt.fs, [.readFromFile "C:/work/old.mcd"]⟩) ∧
    calculate_from_current_mcd sampleSession sampleVendor "C:/work/missing.mcd" emptySt =
      (.error (.fileNotFoundError "MCD file not found at: C:/work/missing.mcd"), emptySt) :=
  ⟨(read_gate_blocks_calculation sampleSession sampleVendor oldMcdSt "C:/work/old.mcd" rfl).1
      ⟨"2.9", none⟩ rfl (by decide),
   (read_gate_blocks_calculation sampleSession sampleVendor emptySt "C:/work/missing.mcd" rfl).2 rfl⟩

/-- C2 (counterexample): on a session constructed with a custom `mcd_name`,
`calculate_from_current_mcd` does not write `Recalculated.mcd` at all and
returns the *input* path, refuting the claim as stated for arbitrary
sessions. -/
theorem calculate_from_current_mcd_named_counterexample :
    (calculate_from_current_mcd namedSession sampleVendor "C:/work/old.mcd" goodMcdSt).1 =
      .ok (⟨"2.11.0", some []⟩, "C:/work/old.mcd", ["calc warning"]) ∧
    "C:/work/old.mcd" ≠ pathJoin namedSession.working_dir "Recalculated.mcd" ∧
    fsLookup (calculate_from_current_mcd namedSession sampleVendor "C:/work/old.mcd" goodMcdSt).2.fs
      (pathJoin namedSession.working_dir "Recalculated.mcd") = none := by
  refine ⟨rfl, ?_, rfl⟩
  decide

/-- C2 (amended): on an initialized session whose `mcd_name` is `None`,
reading an existing supported configuration file and recalculating writes
the calculated object to the fixed `Recalculated.mcd` path in the working
directory and returns the calculated object, that path, and exactly the
calculation warnings (no conversion warnings). -/
theorem calculate_from_current_mcd_recalculated
    (s : Session) (v : Vendor) (st : St) (p : String) (m : McdObj)
    (hname : s.mcd_name = none)
    (hinit : s.initialized = true)
    (hfile : fsLookup st.fs p = some (.mcdFile m))
    (hver : is_version_supported m.softwareVersion = true) :
    calculate_from_current_mcd s v p st =
      (.ok ((v.calculateParameters m).1, pathJoin s.working_dir "Recalculated.mcd",
        (v.calculateParameters m).2),
       ⟨fsWrite st.fs (pathJoin s.working_dir "Recalculated.mcd")
          (.mcdFile (v.calculateParameters m).1),
        st.calls ++ [.readFromFile p, .calculateParameters]⟩) := by
  unfold calculate_from_current_mcd _read_mcd_from_file _check_initialized
  rw [hinit]
  simp [hfile, hver, hname]

theorem calculate_from_current_mcd_recalculated_witness :
    calculate_from_current_mcd sampleSession sampleVendor "C:/work/old.mcd" goodMcdSt =
      (.ok (⟨"2.11.0", some []⟩, "C:/work/Recalculated.mcd", ["calc warning"]),
       ⟨[("C:/work/old.mcd", .mcdFile ⟨"2.11.0", none⟩),
         ("C:/work/Recalculated.mcd", .mcdFile ⟨"2.11.0", some []⟩)],
        [.readFromFile "C:/work/old.mcd", .calculateParameters]⟩) :=
  calculate_from_current_mcd_recalculated sampleSession sampleVendor goodMcdSt
    "C:/work/old.mcd" ⟨"2.11.0", none⟩ rfl rfl rfl (by decide)

/-- C1 (counterexample): on a session constructed with a custom `mcd_name`,
the local `mcd_path` of `calculate_parameters` is never assigned, so the
call raises an unbound-local error instead of writing
`Calculated_<stage_type>.mcd`, refuting the claim as stated for arbitrary
sessions. -/
theorem calculate_parameters_named_crash_counterexample :
    (calculate_parameters namedSession sampleVendor none (some "ANT95L") none specsJsonSt).1 =
      .error (.nameError "local variable mcd_path referenced before assignment") ∧
    fsLookup (calculate_parameters namedSession sampleVendor none (some "ANT95L") none specsJsonSt).2.fs
      "C:/work/Calculated_ANT95L.mcd" = none := by
  exact ⟨rfl, rfl⟩

/-- C1 (amended): on an initialized session whose `mcd_name` is `None`, for
every specs/stage-type/axis input on which the conversion stage succeeds,
`calculate_parameters` invokes the calculation on the converted object,
writes the calculated object to `Calculated_<stage_type>.mcd` in the
working directory, and returns the calculated object, the conversion
warnings followed by the calculation warnings (conversion first), and that
path. -/
theorem calculate_parameters_writes_calculated
    (s : Session) (v : Vendor) (specs_dict : Option (List (String × JVal)))
    (stage_type axis : Option String) (st st1 : St) (mcd_obj : McdObj)
    (up : String) (conv_ws : List String)
    (hname : s.mcd_name = none)
    (hinit : s.initialized = true)
    (hconv : convert_to_mcd s v specs_dict stage_type axis st = (.ok (mcd_obj, up, conv_ws), st1)) :
    calculate_parameters s v specs_dict stage_type axis st =
      (.ok ((v.calculateParameters mcd_obj).1,
            conv_ws ++ (v.calculateParameters mcd_obj).2,
            pathJoin s.working_dir ("Calculated_" ++ fmtPy stage_type ++ ".mcd")),
       ⟨fsWrite st1.fs (pathJoin s.working_dir ("Calculated_" ++ fmtPy stage_type ++ ".mcd"))
          (.mcdFile (v.calculateParameters mcd_obj).1),
        st1.calls ++ [.calculateParameters]⟩) := by
  unfold calculate_parameters _check_initialized
  rw [hinit, hname]
  simp [hconv]

theorem calculate_parameters_writes_calculated_witness :
    calculate_parameters sampleSession sampleVendor none (some "ANT95L") none specsJsonSt =
      (.ok (⟨"2.11.0", some []⟩, ["conv warning", "calc warning"], "C:/work/Calculated_ANT95L.mcd"),
       ⟨[("C:/work/ANT95L.json", .jsonFile (.obj [])),
         ("C:/work/Uncalculated_ANT95L.mcd", .mcdFile ⟨"2.11.0", none⟩),
         ("C:/work/Calculated_ANT95L.mcd", .mcdFile ⟨"2.11.0", some []⟩)],
        [.convertToMcd, .calculateParameters]⟩) :=
  calculate_parameters_writes_calculated sampleSession sampleVendor none (some "ANT95L") none
    specsJsonSt
    ⟨[("C:/work/ANT95L.json", .jsonFile (.obj [])),
      ("C:/work/Uncalculated_ANT95L.mcd", .mcdFile ⟨"2.11.0", none⟩)], [.convertToMcd]⟩
    ⟨"2.11.0", none⟩ "C:/work/Uncalculated_ANT95L.mcd" ["conv warning"] rfl rfl rfl

/-- C9: whenever the `Parameters` content of a calculated object fails to
decode as UTF-8, or decodes but fails to parse as XML, `inspect_mcd_object`
returns `None`; its return type is a plain `Option`, so no exception
propagates to the caller (the `try` block of the source catches both). -/
theorem inspect_mcd_object_degrades_to_none
    (fromstring : String → Except String Elem) (utf8Decode : List Nat → Except String String)
    (obj : McdObj) (items : List ConfigEntry) (content_bytes : List Nat)
    (hcf : obj.configurationFiles = some items)
    (hpv : lastParametersValue items = some (some content_bytes))
    (hfail : (∃ e, utf8Decode content_bytes = .error e) ∨
      (∃ text e, utf8Decode content_bytes = .ok text ∧ fromstring text = .error e)) :
    inspect_mcd_object fromstring utf8Decode obj = none := by
  unfold inspect_mcd_object
  simp only [hcf, hpv]
  rcases hfail with ⟨e, he⟩ | ⟨text, e, ht, he⟩
  · simp [he]
  · simp [ht, extract_servo_loop_parameters_from_xml, he]

theorem inspect_mcd_object_degrades_to_none_witness :
    inspect_mcd_object failParse badDecode paramObj = none ∧
    inspect_mcd_object failParse okDecode paramObj = none :=
  ⟨inspect_mcd_object_degrades_to_none failParse badDecode paramObj
      [⟨some "Parameters", some (some [255, 0])⟩] [255, 0] rfl rfl
      (Or.inl ⟨"invalid utf-8", rfl⟩),
   inspect_mcd_object_degrades_to_none failParse okDecode paramObj
      [⟨some "Parameters", some (some [255, 0])⟩] [255, 0] rfl rfl
      (Or.inr ⟨"<not xml", "syntax error", rfl, rfl⟩)⟩

/-- Reduction of `_update_json_config` on a template of the standard shape
(a first mechanical product with a `ConfiguredOptions` object, and a first
interconnected axis with a `MechanicalAxis` object). -/
theorem update_json_config_shape
    (s : Session) (specs_dict : List (String × JVal)) (stage_type axis : Option String)
    (st : St) (tf pf co af mf : List (String × JVal)) (ps as : List JVal)
    (hT : fsLookup st.fs s.template_path = some (.jsonFile (.obj tf)))
    (hMP : pyLookup tf "MechanicalProducts" = some (.arr (.obj pf :: ps)))
    (hCO : pyLookup pf "ConfiguredOptions" = some (.obj co))
    (hIA : pyLookup tf "InterconnectedAxes" = some (.arr (.obj af :: as)))
    (hMA : pyLookup af "MechanicalAxis" = some (.obj mf)) :
    _update_json_config s specs_dict stage_type axis st =
      (.ok (), ⟨fsWrite st.fs s.working_json_path (.jsonFile (.obj
        (pyDictSet
          (pyDictSet tf "MechanicalProducts"
            (.arr (.obj (productAfter pf (pyDictUpdate co specs_dict) stage_type) :: ps)))
          "InterconnectedAxes"
          (.arr (.obj (axisAfter af mf stage_type axis) :: as))))), st.calls⟩) := by
  have hne : ("MechanicalProducts" : String) ≠ "InterconnectedAxes" := by decide
  have hIA1 : ∀ x : JVal, pyLookup (pyDictSet tf "MechanicalProducts" x) "InterconnectedAxes" =
      some (.arr (.obj af :: as)) := fun x => by
    rw [pyLookup_pyDictSet_ne _ _ _ _ hne, hIA]
  have hNameNe : ("Name" : String) ≠ "MechanicalAxis" := by decide
  have hMA1 : pyLookup (pyDictSet af "Name" (.str (fmtPy axis))) "MechanicalAxis" =
      some (.obj mf) := by
    rw [pyLookup_pyDictSet_ne _ _ _ _ hNameNe, hMA]
  unfold _update_json_config
  rw [hT]
  cases hstg : truthyStr stage_type with
  | false =>
    cases hax : truthyStr axis with
    | false =>
      simp [hMP, hCO, truthyOpt, truthy, hstg, hax, hIA1, hMA, productAfter, axisAfter]
    | true =>
      simp [hMP, hCO, truthyOpt, truthy, hstg, hax, hIA1, hMA1, productAfter, axisAfter]
  | true =>
    cases hax : truthyStr axis with
    | false =>
      simp [hMP, hCO, truthyOpt, truthy, hstg, hax, hIA1, hMA, productAfter, axisAfter]
    | true =>
      simp [hMP, hCO, truthyOpt, truthy, hstg, hax, hIA1, hMA1, productAfter, axisAfter]

/-- C4: on a template of the standard shape, `_update_json_config` succeeds
without vendor calls, touches no file other than the working document, and
the working document it writes carries all of the template's fields: the
top-level keys are unchanged, every top-level value other than
`MechanicalProducts` / `InterconnectedAxes` is unchanged, the product list
tail and axis list tail are unchanged, the first product is unchanged
except that `ConfiguredOptions` holds exactly the template options with the
mapping's keys overwritten or added (all other options untouched) and that
`Name`/`DisplayName` are set only when a stage type is supplied, and the
first interconnected axis is unchanged except for its `Name` (only when an
axis is supplied) and its `MechanicalAxis` `DisplayName` (only when a stage
type is supplied). -/
theorem update_json_config_frame
    (s : Session) (specs_dict : List (String × JVal)) (stage_type axis : Option String)
    (st : St) (tf pf co af mf : List (String × JVal)) (ps as : List JVal)
    (hspecs : (specs_dict.map Prod.fst).Nodup)
    (hT : fsLookup st.fs s.template_path = some (.jsonFile (.obj tf)))
    (hMP : pyLookup tf "MechanicalProducts" = some (.arr (.obj pf :: ps)))
    (hCO : pyLookup pf "ConfiguredOptions" = some (.obj co))
    (hIA : pyLookup tf "InterconnectedAxes" = some (.arr (.obj af :: as)))
    (hMA : pyLookup af "MechanicalAxis" = some (.obj mf)) :
    (_update_json_config s specs_dict stage_type axis st).1 = .ok () ∧
    (_update_json_config s specs_dict stage_type axis st).2.calls = st.calls ∧
    (∀ p, p ≠ s.working_json_path →
      fsLookup (_update_json_config s specs_dict stage_type axis st).2.fs p = fsLookup st.fs p) ∧
    jKeys (workingFields s (_update_json_config s specs_dict stage_type axis st).2) =
      some (tf.map Prod.fst) ∧
    (∀ k, k ≠ "MechanicalProducts" → k ≠ "InterconnectedAxes" →
      jLook (workingFields s (_update_json_config s specs_dict stage_type axis st).2) k =
        pyLookup tf k) ∧
    productsTail (workingFields s (_update_json_config s specs_dict stage_type axis st).2) =
      some ps ∧
    (∀ k, k ≠ "ConfiguredOptions" → k ≠ "Name" → k ≠ "DisplayName" →
      jLook (firstProductFields
        (workingFields s (_update_json_config s specs_dict stage_type axis st).2)) k =
        pyLookup pf k) ∧
    jLook (firstProductFields
        (workingFields s (_update_json_config s specs_dict stage_type axis st).2))
        "ConfiguredOptions" = some (.obj (pyDictUpdate co specs_dict)) ∧
    (∀ k, pyLookup (pyDictUpdate co specs_dict) k =
      (pyLookup specs_dict k).elim (pyLookup co k) some) ∧
    jLook (firstProductFields
        (workingFields s (_update_json_config s specs_dict stage_type axis st).2)) "Name" =
      (if truthyStr stage_type then some (.str (fmtPy stage_type)) else pyLookup pf "Name") ∧
    jLook (firstProductFields
        (workingFields s (_update_json_config s specs_dict stage_type axis st).2)) "DisplayName" =
      (if truthyStr stage_type then some (.str (fmtPy stage_type)) else pyLookup pf "DisplayName") ∧
    axesTail (workingFields s (_update_json_config s specs_dict stage_type axis st).2) =
      some as ∧
    (∀ k, k ≠ "Name" → k ≠ "MechanicalAxis" →
      jLook (firstAxisFields
        (workingFields s (_update_json_config s specs_dict stage_type axis st).2)) k =
        pyLookup af k) ∧
    jLook (firstAxisFields
        (workingFields s (_update_json_config s specs_dict stage_type axis st).2)) "Name" =
      (if truthyStr axis then some (.str (fmtPy axis)) else pyLookup af "Name") ∧
    (∀ k, k ≠ "DisplayName" →
      jLook (mechAxisFields
        (workingFields s (_update_json_config s specs_dict stage_type axis st).2)) k =
        pyLookup mf k) ∧
    jLook (mechAxisFields
        (workingFields s (_update_json_config s specs_dict stage_type axis st).2)) "DisplayName" =
      (if truthyStr stage_type then some (.str (fmtPy stage_type)) else pyLookup mf "DisplayName") := by
  have hshape := update_json_config_shape s specs_dict stage_type axis st tf pf co af mf ps as
    hT hMP hCO hIA hMA
  have hWF : workingFields s (_update_json_config s specs_dict stage_type axis st).2 =
      some (pyDictSet
        (pyDictSet tf "MechanicalProducts"
          (.arr (.obj (productAfter pf (pyDictUpdate co specs_dict) stage_type) :: ps)))
        "InterconnectedAxes"
        (.arr (.obj (axisAfter af mf stage_type axis) :: as))) := by
    rw [hshape]
    simp [workingFields, fsLookup, fsWrite, pyLookup_pyDictSet_self]
  have hMPlook : pyLookup (pyDictSet
        (pyDictSet tf "MechanicalProducts"
          (.arr (.obj (productAfter pf (pyDictUpdate co specs_dict) stage_type) :: ps)))
        "InterconnectedAxes"
        (.arr (.obj (axisAfter af mf stage_type axis) :: as))) "MechanicalProducts" =
      some (.arr (.obj (productAfter pf (pyDictUpdate co specs_dict) stage_type) :: ps)) := by
    rw [pyLookup_pyDictSet_ne _ _ _ _ (by decide : ("InterconnectedAxes" : String) ≠ "MechanicalProducts"),
      pyLookup_pyDictSet_self]
  have hIAlook : pyLookup (pyDictSet
        (pyDictSet tf "MechanicalProducts"
          (.arr (.obj (productAfter pf (pyDictUpdate co specs_dict) stage_type) :: ps)))
        "InterconnectedAxes"
        (.arr (.obj (axisAfter af mf stage_type axis) :: as))) "InterconnectedAxes" =
      some (.arr (.obj (axisAfter af mf stage_type axis) :: as)) :=
    pyLookup_pyDictSet_self _ _ _
  have hfP : firstProductFields
      (workingFields s (_update_json_config s specs_dict stage_type axis st).2) =
      some (productAfter pf (pyDictUpdate co specs_dict) stage_type) := by
    rw [hWF]
    simp [firstProductFields, jLook, hMPlook]
  have hfA : firstAxisFields
      (workingFields s (_update_json_config s specs_dict stage_type axis st).2) =
      some (axisAfter af mf stage_type axis) := by
    rw [hWF]
    simp [firstAxisFields, jLook, hIAlook]
  have hpf2CO : pyLookup (productAfter pf (pyDictUpdate co specs_dict) stage_type)
      "ConfiguredOptions" = some (.obj (pyDictUpdate co specs_dict)) := by
    cases hstg : truthyStr stage_type with
    | false => simp [productAfter, hstg, pyLookup_pyDictSet_self]
    | true =>
      simp only [productAfter, hstg, if_true]
      rw [pyLookup_pyDictSet_ne _ _ _ _ (by decide : ("DisplayName" : String) ≠ "ConfiguredOptions"),
        pyLookup_pyDictSet_ne _ _ _ _ (by decide : ("Name" : String) ≠ "ConfiguredOptions"),
        pyLookup_pyDictSet_self]
  have hpf2Name : pyLookup (productAfter pf (pyDictUpdate co specs_dict) stage_type) "Name" =
      (if truthyStr stage_type then some (.str (fmtPy stage_type)) else pyLookup pf "Name") := by
    cases hstg : truthyStr stage_type with
    | false =>
      simp only [productAfter, hstg, Bool.false_eq_true, if_false]
      rw [pyLookup_pyDictSet_ne _ _ _ _ (by decide : ("ConfiguredOptions" : String) ≠ "Name")]
    | true =>
      simp only [productAfter, hstg, if_true]
      rw [pyLookup_pyDictSet_ne _ _ _ _ (by decide : ("DisplayName" : String) ≠ "Name"),
        pyLookup_pyDictSet_self]
  have hpf2Disp : pyLookup (productAfter pf (pyDictUpdate co specs_dict) stage_type) "DisplayName" =
      (if truthyStr stage_type then some (.str (fmtPy stage_type)) else pyLookup pf "DisplayName") := by
    cases hstg : truthyStr stage_type with
    | false =>
      simp only [productAfter, hstg, Bool.false_eq_true, if_false]
      rw [pyLookup_pyDictSet_ne _ _ _ _ (by decide : ("ConfiguredOptions" : String) ≠ "DisplayName")]
    | true =>
      simp only [productAfter, hstg, if_true]
      rw [pyLookup_pyDictSet_self]
  have hpf2other : ∀ k, k ≠ "ConfiguredOptions" → k ≠ "Name" → k ≠ "DisplayName" →
      pyLookup (productAfter pf (pyDictUpdate co specs_dict) stage_type) k = pyLookup pf k := by
    intro k h1 h2 h3
    cases hstg : truthyStr stage_type with
    | false =>
      simp only [productAfter, hstg, Bool.false_eq_true, if_false]
      rw [pyLookup_pyDictSet_ne _ _ _ _ (Ne.symm h1)]
    | true =>
      simp only [productAfter, hstg, if_true]
      rw [pyLookup_pyDictSet_ne _ _ _ _ (Ne.symm h3),
        pyLookup_pyDictSet_ne _ _ _ _ (Ne.symm h2),
        pyLookup_pyDictSet_ne _ _ _ _ (Ne.symm h1)]
  have haf2Name : pyLookup (axisAfter af mf stage_type axis) "Name" =
      (if truthyStr axis then some (.str (fmtPy axis)) else pyLookup af "Name") := by
    cases hstg : truthyStr stage_type with
    | false =>
      cases hax : truthyStr axis with
      | false => simp [axisAfter, hstg, hax]
      | true => simp [axisAfter, hstg, hax, pyLookup_pyDictSet_self]
    | true =>
      cases hax : truthyStr axis with
      | false =>
        simp only [axisAfter, hstg, hax, Bool.false_eq_true, if_false, if_true]
        rw [pyLookup_pyDictSet_ne _ _ _ _ (by decide : ("MechanicalAxis" : String) ≠ "Name")]
      | true =>
        simp only [axisAfter, hstg, hax, if_true]
        rw [pyLookup_pyDictSet_ne _ _ _ _ (by decide : ("MechanicalAxis" : String) ≠ "Name"),
          pyLookup_pyDictSet_self]
  have haf2other : ∀ k, k ≠ "Name" → k ≠ "MechanicalAxis" →
      pyLookup (axisAfter af mf stage_type axis) k = pyLookup af k := by
    intro k h1 h2
    cases hstg : truthyStr stage_type with
    | false =>
      cases hax : truthyStr axis with
      | false => simp [axisAfter, hstg, hax]
      | true =>
        simp only [axisAfter, hstg, hax, Bool.false_eq_true, if_false, if_true]
        rw [pyLookup_pyDictSet_ne _ _ _ _ (Ne.symm h1)]
    | true =>
      cases hax : truthyStr axis with
      | false =>
        simp only [axisAfter, hstg, hax, Bool.false_eq_true, if_false, if_true]
        rw [pyLookup_pyDictSet_ne _ _ _ _ (Ne.symm h2)]
      | true =>
        simp only [axisAfter, hstg, hax, if_true]
        rw [pyLookup_pyDictSet_ne _ _ _ _ (Ne.symm h2),
          pyLookup_pyDictSet_ne _ _ _ _ (Ne.symm h1)]
  have haf2MA : pyLookup (axisAfter af mf stage_type axis) "MechanicalAxis" =
      some (.obj (if truthyStr stage_type then
        pyDictSet mf "DisplayName" (.str (fmtPy stage_type)) else mf)) := by
    cases hstg : truthyStr stage_type with
    | false =>
      cases hax : truthyStr axis with
      | false => simp [axisAfter, hstg, hax, hMA]
      | true =>
        simp only [axisAfter, hstg, hax, Bool.false_eq_true, if_false, if_true]
        rw [pyLookup_pyDictSet_ne _ _ _ _ (by decide : ("Name" : String) ≠ "MechanicalAxis"), hMA]
    | true =>
      simp [axisAfter, hstg, pyLookup_pyDictSet_self]
  have hmech : mechAxisFields
      (workingFields s (_update_json_config s specs_dict stage_type axis st).2) =
      some (if truthyStr stage_type then
        pyDictSet mf "DisplayName" (.str (fmtPy stage_type)) else mf) := by
    rw [mechAxisFields, hfA]
    simp only [jLook, haf2MA]
  refine ⟨?_, ?_, ?_, ?_, ?_, ?_, ?_, ?_, ?_, ?_, ?_, ?_, ?_, ?_, ?_, ?_⟩
  · rw [hshape]
  · rw [hshape]
  · intro p hp
    rw [hshape]
    exact pyLookup_pyDictSet_ne _ _ _ _ (Ne.symm hp)
  · rw [hWF]
    have k1 : pyLookup tf "MechanicalProducts" ≠ none := by rw [hMP]; simp
    have e1 : (pyDictSet tf "MechanicalProducts"
        (.arr (.obj (productAfter pf (pyDictUpdate co specs_dict) stage_type) :: ps))).map Prod.fst =
        tf.map Prod.fst := keys_pyDictSet _ _ _ k1
    have k2 : pyLookup (pyDictSet tf "MechanicalProducts"
        (.arr (.obj (productAfter pf (pyDictUpdate co specs_dict) stage_type) :: ps)))
        "InterconnectedAxes" ≠ none := by
      rw [pyLookup_pyDictSet_ne _ _ _ _ (by decide : ("MechanicalProducts" : String) ≠ "InterconnectedAxes"), hIA]
      simp
    have e2 := keys_pyDictSet (pyDictSet tf "MechanicalProducts"
        (.arr (.obj (productAfter pf (pyDictUpdate co specs_dict) stage_type) :: ps)))
        "InterconnectedAxes" (.arr (.obj (axisAfter af mf stage_type axis) :: as)) k2
    simp [jKeys, e2, e1]
  · intro k h1 h2
    rw [hWF]
    simp only [jLook]
    rw [pyLookup_pyDictSet_ne _ _ _ _ (Ne.symm h2), pyLookup_pyDictSet_ne _ _ _ _ (Ne.symm h1)]
  · rw [hWF]
    simp [productsTail, jLook, hMPlook]
  · intro k h1 h2 h3
    rw [hfP]
    simp only [jLook]
    exact hpf2other k h1 h2 h3
  · rw [hfP]
    simp only [jLook]
    exact hpf2CO
  · intro k
    exact pyLookup_pyDictUpdate co specs_dict hspecs k
  · rw [hfP]
    simp only [jLook]
    exact hpf2Name
  · rw [hfP]
    simp only [jLook]
    exact hpf2Disp
  · rw [hWF]
    simp [axesTail, jLook, hIAlook]
  · intro k h1 h2
    rw [hfA]
    simp only [jLook]
    exact haf2other k h1 h2
  · rw [hfA]
    simp only [jLook]
    exact haf2Name
  · intro k h1
    rw [hmech]
    cases hstg : truthyStr stage_type with
    | false => simp [hstg, jLook]
    | true =>
      simp only [hstg, if_true, jLook]
      exact pyLookup_pyDictSet_ne _ _ _ _ (Ne.symm h1)
  · rw [hmech]
    cases hstg : truthyStr stage_type with
    | false => simp [hstg, jLook]
    | true => simp [hstg, jLook, pyLookup_pyDictSet_self]

theorem update_json_config_frame_witness :
    (_update_json_config sampleSession [("Travel", JVal.str "-100MM"), ("Motor", JVal.str "-M1")]
        (some "ANT95L") (some "X") templSt).1 = .ok () ∧
    jLook (workingFields sampleSession (_update_json_config sampleSession
        [("Travel", JVal.str "-100MM"), ("Motor", JVal.str "-M1")]
        (some "ANT95L") (some "X") templSt).2) "Version" = some (.num 7) ∧
    jLook (firstProductFields (workingFields sampleSession (_update_json_config sampleSession
        [("Travel", JVal.str "-100MM"), ("Motor", JVal.str "-M1")]
        (some "ANT95L") (some "X") templSt).2)) "ConfiguredOptions" =
      some (.obj [("Travel", .str "-100MM"), ("Feedback", .str "-E1"), ("Motor", .str "-M1")]) ∧
    jLook (firstProductFields (workingFields sampleSession (_update_json_config sampleSession
        [("Travel", JVal.str "-100MM"), ("Motor", JVal.str "-M1")]
        (some "ANT95L") (some "X") templSt).2)) "Name" = some (.str "ANT95L") ∧
    jLook (firstAxisFields (workingFields sampleSession (_update_json_config sampleSession
        [("Travel", JVal.str "-100MM"), ("Motor", JVal.str "-M1")]
        (some "ANT95L") (some "X") templSt).2)) "Name" = some (.str "X") ∧
    jLook (mechAxisFields (workingFields sampleSession (_update_json_config sampleSession
        [("Travel", JVal.str "-100MM"), ("Motor", JVal.str "-M1")]
        (some "ANT95L") (some "X") templSt).2)) "DisplayName" = some (.str "ANT95L") := by
  have h := update_json_config_frame sampleSession
    [("Travel", JVal.str "-100MM"), ("Motor", JVal.str "-M1")] (some "ANT95L") (some "X")
    templSt sampleTemplate
    [("Name", .str "Template"), ("DisplayName", .str "Template"),
     ("ConfiguredOptions", .obj [("Travel", .str "-050MM"), ("Feedback", .str "-E1")])]
    [("Travel", .str "-050MM"), ("Feedback", .str "-E1")]
    [("Name", .str "Axis1"),
     ("MechanicalAxis", .obj [("DisplayName", .str "Template"), ("Id", .num 1)])]
    [("DisplayName", .str "Template"), ("Id", .num 1)]
    [.obj []] [.obj []]
    (by decide) rfl rfl rfl rfl rfl
  exact ⟨h.1, h.2.2.2.2.1 "Version" (by decide) (by decide),
    h.2.2.2.2.2.2.2.1,
    h.2.2.2.2.2.2.2.2.2.1,
    h.2.2.2.2.2.2.2.2.2.2.2.2.2.1,
    h.2.2.2.2.2.2.2.2.2.2.2.2.2.2.2⟩

/-- Lookup in the dictionary built by the extraction fold: when the axis
indices are pairwise distinct, an index maps to the flattened matching
parameters of its axes if these are nonempty, and falls back to the
accumulator otherwise. -/
theorem buildDict_lookup (g : Elem → List XmlParam) (axes : List Elem)
    (acc : List (Option String × List XmlParam)) (i : Option String)
    (hnd : (axes.map axIndex).Nodup)
    (hacc : ∀ ax ∈ axes, pyLookup acc (axIndex ax) = none) :
    pyLookup
      (axes.foldl (fun d ax =>
        let params := g ax
        if params.isEmpty then d else pyDictSet d (axIndex ax) params) acc) i =
      (if (axes.filter (fun ax => axIndex ax == i)).flatMap g = []
       then pyLookup acc i
       else some ((axes.filter (fun ax => axIndex ax == i)).flatMap g)) := by
  induction axes generalizing acc with
  | nil => simp
  | cons ax0 rest ih =>
    simp only [List.map_cons, List.nodup_cons] at hnd
    obtain ⟨hax0, hndr⟩ := hnd
    have hacc0 : pyLookup acc (axIndex ax0) = none := hacc ax0 (List.mem_cons_self _ _)
    have haccr : ∀ ax ∈ rest,
        pyLookup (if (g ax0).isEmpty then acc else pyDictSet acc (axIndex ax0) (g ax0))
          (axIndex ax) = none := by
      intro ax hax
      by_cases he : (g ax0).isEmpty
      · simp [he, hacc ax (List.mem_cons_of_mem _ hax)]
      · have hne : axIndex ax0 ≠ axIndex ax :=
          fun h => hax0 (h ▸ List.mem_map_of_mem axIndex hax)
        simp [he, pyLookup_pyDictSet_ne _ _ _ _ hne, hacc ax (List.mem_cons_of_mem _ hax)]
    have hstep : (ax0 :: rest).foldl (fun d ax =>
        let params := g ax
        if params.isEmpty then d else pyDictSet d (axIndex ax) params) acc =
        rest.foldl (fun d ax =>
          let params := g ax
          if params.isEmpty then d else pyDictSet d (axIndex ax) params)
          (if (g ax0).isEmpty then acc else pyDictSet acc (axIndex ax0) (g ax0)) := rfl
    rw [hstep, ih _ hndr haccr]
    by_cases hidx : axIndex ax0 = i
    · subst hidx
      have hfr : rest.filter (fun ax => axIndex ax == axIndex ax0) = [] := by
        rw [List.filter_eq_nil_iff]
        intro ax hax
        simp only [beq_iff_eq]
        exact fun h => hax0 (h ▸ List.mem_map_of_mem axIndex hax)
      have hfc : (ax0 :: rest).filter (fun ax => axIndex ax == axIndex ax0) = [ax0] := by
        simp [List.filter_cons, hfr]
      rw [hfr, hfc]
      by_cases hge : (g ax0).isEmpty
      · have hg0 : g ax0 = [] := List.isEmpty_iff.mp hge
        simp [hge, hg0, hacc0]
      · have hg0 : g ax0 ≠ [] := fun h => hge (by simp [h])
        simp [hge, hg0, pyLookup_pyDictSet_self]
    · have hfc : (ax0 :: rest).filter (fun ax => axIndex ax == i) =
          rest.filter (fun ax => axIndex ax == i) := by
        simp [List.filter_cons, hidx]
      rw [hfc]
      by_cases hge : (g ax0).isEmpty
      · simp [hge]
      · simp only [hge, Bool.false_eq_true, if_false]
        rw [pyLookup_pyDictSet_ne _ _ _ _ hidx]

/-- C5 (counterexample): with two `Axis` elements sharing `Index` `"0"`,
each holding one servo-loop parameter, the extractor keeps only the second
element's parameters — the dictionary assignment overwrites — whereas the
claim requires all of axis 0's matching pairs in document order. -/
theorem extract_parameters_duplicate_index_counterexample :
    pyLookup (servoDictOf dupRoot) (some "0") = some [⟨"ServoLoopGainKi", some "2"⟩] ∧
    servoPairsAt dupRoot (some "0") =
      [⟨"ServoLoopGainKp", some "1"⟩, ⟨"ServoLoopGainKi", some "2"⟩] ∧
    pyLookup (servoDictOf dupRoot) (some "0") ≠ some (servoPairsAt dupRoot (some "0")) := by
  refine ⟨?_, ?_, ?_⟩
  · simp [servoDictOf, axisElemsOf, descendantsList, dupRoot, servoParamsOfAxis, attrGet,
      axIndex, strStartsWith, pyLookup, pyDictSet, Elem.children, Elem.tag, Elem.attrs, Elem.text]
  · simp [servoPairsAt, axisElemsOf, descendantsList, dupRoot, servoParamsOfAxis, attrGet,
      axIndex, strStartsWith, pyLookup, Elem.children, Elem.tag, Elem.attrs, Elem.text]
  · simp [servoDictOf, servoPairsAt, axisElemsOf, descendantsList, dupRoot, servoParamsOfAxis,
      attrGet, axIndex, strStartsWith, pyLookup, pyDictSet, Elem.children, Elem.tag, Elem.attrs,
      Elem.text]

/-- C5 (amended): for every XML document in which the `Index` attributes of
the `Axis` elements (children of `Axes` elements) are pairwise distinct,
the two extractors return axis-indexed mappings in which each index maps to
exactly its axis's prefix-matching `(name, value)` pairs in document order,
and an index whose axis has no matching parameter for a prefix is absent
from that prefix's mapping. -/
theorem extract_parameters_by_axis
    (fromstring : String → Except String Elem) (xml_text : String) (root : Elem)
    (hparse : fromstring xml_text = .ok root)
    (hnd : ((axisElemsOf root).map axIndex).Nodup) :
    extract_servo_loop_parameters_from_xml fromstring xml_text = .ok (servoDictOf root) ∧
    extract_feedforward_parameters_from_xml fromstring xml_text = .ok (ffDictOf root) ∧
    (∀ i, pyLookup (servoDictOf root) i =
      (if servoPairsAt root i = [] then none else some (servoPairsAt root i))) ∧
    (∀ i, pyLookup (ffDictOf root) i =
      (if ffPairsAt root i = [] then none else some (ffPairsAt root i))) := by
  refine ⟨?_, ?_, ?_, ?_⟩
  · simp [extract_servo_loop_parameters_from_xml, hparse]
  · simp [extract_feedforward_parameters_from_xml, hparse]
  · intro i
    have h := buildDict_lookup servoParamsOfAxis (axisElemsOf root) [] i hnd
      (fun ax _ => rfl)
    simpa [servoDictOf, servoPairsAt, pyLookup] using h
  · intro i
    have h := buildDict_lookup ffParamsOfAxis (axisElemsOf root) [] i hnd
      (fun ax _ => rfl)
    simpa [ffDictOf, ffPairsAt, pyLookup] using h

theorem extract_parameters_by_axis_witness :
    extract_servo_loop_parameters_from_xml okParse "<Machine/>" = .ok (servoDictOf xmlRoot) ∧
    pyLookup (servoDictOf xmlRoot) (some "0") = some [⟨"ServoLoopGainKp", some "1"⟩] ∧
    pyLookup (servoDictOf xmlRoot) (some "1") = some [⟨"ServoLoopGainKi", some "2"⟩] ∧
    pyLookup (ffDictOf xmlRoot) (some "0") = some [⟨"FeedforwardMass", some "3"⟩] ∧
    pyLookup (ffDictOf xmlRoot) (some "1") = none := by
  have h := extract_parameters_by_axis okParse "<Machine/>" xmlRoot rfl
    (by simp [axisElemsOf, descendantsList, xmlRoot, axIndex, Elem.children, Elem.tag,
      Elem.attrs, pyLookup])
  refine ⟨h.1, ?_, ?_, ?_, ?_⟩
  · rw [h.2.2.1 (some "0")]
    simp [servoPairsAt, axisElemsOf, descendantsList, xmlRoot, servoParamsOfAxis, attrGet,
      axIndex, strStartsWith, pyLookup, Elem.children, Elem.tag, Elem.attrs, Elem.text]
  · rw [h.2.2.1 (some "1")]
    simp [servoPairsAt, axisElemsOf, descendantsList, xmlRoot, servoParamsOfAxis, attrGet,
      axIndex, strStartsWith, pyLookup, Elem.children, Elem.tag, Elem.attrs, Elem.text]
  · rw [h.2.2.2 (some "0")]
    simp [ffPairsAt, axisElemsOf, descendantsList, xmlRoot, ffParamsOfAxis, attrGet,
      axIndex, strStartsWith, pyLookup, Elem.children, Elem.tag, Elem.attrs, Elem.text]
  · rw [h.2.2.2 (some "1")]
    simp [ffPairsAt, axisElemsOf, descendantsList, xmlRoot, ffParamsOfAxis, attrGet,
      axIndex, strStartsWith, pyLookup, Elem.children, Elem.tag, Elem.attrs, Elem.text]

theorem lexGt_nil_left (v : List Nat) : lexGt [] v = false := by
  cases v <;> rfl

theorem lexGt_cons_nil (a : Nat) (as : List Nat) : lexGt (a :: as) [] = true := rfl

theorem lexGt_cons_cons (a b : Nat) (as bs : List Nat) :
    lexGt (a :: as) (b :: bs) =
      if b < a then true else if a < b then false else lexGt as bs := rfl

theorem stripZeros_cons (a : Nat) (as : List Nat) :
    stripZeros (a :: as) =
      (match stripZeros as with
       | [] => if a = 0 then [] else [a]
       | b :: bs => a :: b :: bs) := rfl

theorem lexGt_asymm (u : List Nat) : ∀ v, lexGt u v = true → lexGt v u = false := by
  induction u with
  | nil =>
    intro v h
    rw [lexGt_nil_left] at h
    cases h
  | cons a as ih =>
    intro v h
    cases v with
    | nil => rfl
    | cons b bs =>
      rw [lexGt_cons_cons] at h ⊢
      by_cases h1 : b < a
      · have h2 : ¬a < b := by omega
        simp [h1, h2]
      · by_cases h2 : a < b
        · simp [h1, h2] at h
        · simp only [h1, h2, if_false] at h
          simp [h1, h2, ih bs h]

theorem lexGt_eq_of_not_gt (u : List Nat) :
    ∀ v, lexGt u v = false → lexGt v u = false → u = v := by
  induction u with
  | nil =>
    intro v h1 h2
    cases v with
    | nil => rfl
    | cons b bs => rw [lexGt_cons_nil] at h2; cases h2
  | cons a as ih =>
    intro v h1 h2
    cases v with
    | nil => rw [lexGt_cons_nil] at h1; cases h1
    | cons b bs =>
      rw [lexGt_cons_cons] at h1 h2
      by_cases hba : b < a
      · simp [hba] at h1
      · by_cases hab : a < b
        · simp [hab, hba] at h2
        · have hh : a = b := by omega
          subst hh
          simp only [hba, hab, if_false, lt_irrefl] at h1 h2
          rw [ih bs h1 h2]

theorem lexGt_of_stripZeros (as : List Nat) :
    ∀ bs, stripZeros as ≠ [] → stripZeros bs = [] → lexGt as bs = true := by
  induction as with
  | nil =>
    intro bs h _
    exact absurd rfl h
  | cons a as' ih =>
    intro bs hne hb
    cases hsa : stripZeros as' with
    | nil =>
      have ha : a ≠ 0 := by
        intro h0
        apply hne
        rw [stripZeros_cons, hsa]
        simp [h0]
      cases bs with
      | nil => exact lexGt_cons_nil _ _
      | cons b bs' =>
        rw [stripZeros_cons] at hb
        cases hsb : stripZeros bs' with
        | nil =>
          rw [hsb] at hb
          by_cases hb0 : b = 0
          · subst hb0
            rw [lexGt_cons_cons]
            have hpos : 0 < a := Nat.pos_of_ne_zero ha
            simp [hpos]
          · rw [if_neg hb0] at hb
            cases hb
        | cons c cs =>
          rw [hsb] at hb
          cases hb
    | cons s ss =>
      cases bs with
      | nil => exact lexGt_cons_nil _ _
      | cons b bs' =>
        rw [stripZeros_cons] at hb
        cases hsb : stripZeros bs' with
        | cons c cs =>
          rw [hsb] at hb
          cases hb
        | nil =>
          rw [hsb] at hb
          by_cases hb0 : b = 0
          · subst hb0
            rw [lexGt_cons_cons]
            by_cases hpos : 0 < a
            · simp [hpos]
            · have ha0 : a = 0 := by omega
              subst ha0
              simp only [lt_irrefl, if_false]
              exact ih bs' (by rw [hsa]; simp) hsb
          · rw [if_neg hb0] at hb
            cases hb

theorem lexGt_of_lexGt_strip (u : List Nat) :
    ∀ v, lexGt (stripZeros u) (stripZeros v) = true → lexGt u v = true := by
  induction u with
  | nil =>
    intro v h
    rw [show stripZeros [] = [] from rfl, lexGt_nil_left] at h
    cases h
  | cons a as ih =>
    intro v h
    cases v with
    | nil => exact lexGt_cons_nil _ _
    | cons b bs =>
      rw [stripZeros_cons, stripZeros_cons] at h
      rw [lexGt_cons_cons]
      cases hsa : stripZeros as with
      | nil =>
        rw [hsa] at h
        by_cases ha0 : a = 0
        · rw [if_pos ha0, lexGt_nil_left] at h
          cases h
        · rw [if_neg ha0] at h
          cases hsb : stripZeros bs with
          | nil =>
            rw [hsb] at h
            by_cases hb0 : b = 0
            · subst hb0
              simp [Nat.pos_of_ne_zero ha0]
            · rw [if_neg hb0, lexGt_cons_cons] at h
              by_cases hba : b < a
              · simp [hba]
              · by_cases hab : a < b
                · simp [hba, hab] at h
                · simp [hba, hab, lexGt] at h
          | cons c cs =>
            rw [hsb, lexGt_cons_cons] at h
            by_cases hba : b < a
            · simp [hba]
            · by_cases hab : a < b
              · simp [hba, hab] at h
              · simp [hba, hab, lexGt_nil_left] at h
      | cons s ss =>
        rw [hsa] at h
        cases hsb : stripZeros bs with
        | nil =>
          rw [hsb] at h
          by_cases hb0 : b = 0
          · subst hb0
            by_cases hpos : 0 < a
            · simp [hpos]
            · have ha0 : a = 0 := by omega
              subst ha0
              simp only [lt_irrefl, if_false]
              exact lexGt_of_stripZeros as bs (by rw [hsa]; simp) hsb
          · rw [if_neg hb0, lexGt_cons_cons] at h
            by_cases hba : b < a
            · simp [hba]
            · by_cases hab : a < b
              · simp [hba, hab] at h
              · simp only [hba, hab, if_false] at h ⊢
                exact lexGt_of_stripZeros as bs (by rw [hsa]; simp) hsb
        | cons c cs =>
          rw [hsb, lexGt_cons_cons] at h
          by_cases hba : b < a
          · simp [hba]
          · by_cases hab : a < b
            · simp [hba, hab] at h
            · simp only [hba, hab, if_false] at h ⊢
              apply ih bs
              rw [hsa, hsb]
              exact h

theorem packagingKey_eq_of_wf (v : String) (h : wellFormedVersion v = true) :
    packagingKey v = stripZeros (version_tuple v) := by
  unfold packagingKey version_tuple
  unfold wellFormedVersion at h
  rw [List.filter_eq_self.mpr (List.all_eq_true.mp h)]

/-- The two latest-version folds, run over the same names from
strip-equivalent starting points, end on well-formed names whose numeric
tuples are equal after removing trailing zeros. -/
theorem pick_strip_eq (rest : List String) : ∀ b1 b2 : String,
    (∀ x ∈ rest, wellFormedVersion x = true) →
    wellFormedVersion b1 = true → wellFormedVersion b2 = true →
    stripZeros (version_tuple b1) = stripZeros (version_tuple b2) →
    wellFormedVersion (rest.foldl
      (fun best x => if lexGt (packagingKey x) (packagingKey best) then x else best) b1) = true ∧
    wellFormedVersion (rest.foldl
      (fun best x => if lexGt (version_tuple x) (version_tuple best) then x else best) b2) = true ∧
    stripZeros (version_tuple (rest.foldl
      (fun best x => if lexGt (packagingKey x) (packagingKey best) then x else best) b1)) =
      stripZeros (version_tuple (rest.foldl
        (fun best x => if lexGt (version_tuple x) (version_tuple best) then x else best) b2)) := by
  induction rest with
  | nil =>
    intro b1 b2 _ h1 h2 hb
    exact ⟨h1, h2, hb⟩
  | cons x rest' ih =>
    intro b1 b2 hr h1 h2 hb
    have hx : wellFormedVersion x = true := hr x (List.mem_cons_self _ _)
    have hr' : ∀ y ∈ rest', wellFormedVersion y = true :=
      fun y hy => hr y (List.mem_cons_of_mem _ hy)
    have hkx : packagingKey x = stripZeros (version_tuple x) := packagingKey_eq_of_wf x hx
    have hkb1 : packagingKey b1 = stripZeros (version_tuple b1) := packagingKey_eq_of_wf b1 h1
    rw [List.foldl_cons, List.foldl_cons]
    by_cases hgt : lexGt (stripZeros (version_tuple x)) (stripZeros (version_tuple b1)) = true
    · have e1 : (if lexGt (packagingKey x) (packagingKey b1) then x else b1) = x := by
        rw [hkx, hkb1]
        simp [hgt]
      have hgt2 : lexGt (version_tuple x) (version_tuple b2) = true := by
        apply lexGt_of_lexGt_strip
        rw [← hb]
        exact hgt
      have e2 : (if lexGt (version_tuple x) (version_tuple b2) then x else b2) = x := by
        simp [hgt2]
      rw [e1, e2]
      exact ih x x hr' hx hx rfl
    · by_cases hlt : lexGt (stripZeros (version_tuple b1)) (stripZeros (version_tuple x)) = true
      · have hraw : lexGt (version_tuple b2) (version_tuple x) = true := by
          apply lexGt_of_lexGt_strip
          rw [← hb]
          exact hlt
        have hrawx : lexGt (version_tuple x) (version_tuple b2) = false :=
          lexGt_asymm _ _ hraw
        have e1 : (if lexGt (packagingKey x) (packagingKey b1) then x else b1) = b1 := by
          rw [hkx, hkb1]
          simp [hgt]
        have e2 : (if lexGt (version_tuple x) (version_tuple b2) then x else b2) = b2 := by
          simp [hrawx]
        rw [e1, e2]
        exact ih b1 b2 hr' h1 h2 hb
      · have heq : stripZeros (version_tuple x) = stripZeros (version_tuple b1) :=
          lexGt_eq_of_not_gt _ _ (Bool.eq_false_iff.mpr hgt) (Bool.eq_false_iff.mpr hlt)
        have e1 : (if lexGt (packagingKey x) (packagingKey b1) then x else b1) = b1 := by
          rw [hkx, hkb1]
          simp [hgt]
        rw [e1]
        by_cases hxy : lexGt (version_tuple x) (version_tuple b2) = true
        · have e2 : (if lexGt (version_tuple x) (version_tuple b2) then x else b2) = x := by
            simp [hxy]
          rw [e2]
          exact ih b1 x hr' h1 hx (by rw [heq, hb])
        · have e2 : (if lexGt (version_tuple x) (version_tuple b2) then x else b2) = b2 := by
            simp [hxy]
          rw [e2]
          exact ih b1 b2 hr' h1 h2 hb

/-- C8 (counterexample): on the well-formed list `["2.1", "2.1.0"]` the
full parser selects `"2.1"` (the two names denote equal versions and the
stable sort keeps the first) while the fallback tuple comparator selects
`"2.1.0"` (its raw tuple is lexicographically larger), so the selected
names differ. -/
theorem latest_version_name_counterexample :
    latestByPackaging ["2.1", "2.1.0"] = some "2.1" ∧
    latestByTuple ["2.1", "2.1.0"] = some "2.1.0" ∧
    latestByPackaging ["2.1", "2.1.0"] ≠ latestByTuple ["2.1", "2.1.0"] := by
  refine ⟨?_, ?_, ?_⟩ <;> decide

/-- C8 (amended): for every nonempty list of well-formed dot-separated
numeric names, the name selected under `packaging.version` ordering and the
name selected under the fallback integer-tuple ordering denote the same
version: their numeric tuples agree after removing trailing zero
components (though the names themselves may differ, as the counterexample
shows). -/
theorem latest_version_agrees_up_to_version (n : String) (rest : List String)
    (h : ∀ x ∈ n :: rest, wellFormedVersion x = true) :
    (latestByPackaging (n :: rest)).map packagingKey =
      (latestByTuple (n :: rest)).map packagingKey := by
  have hn : wellFormedVersion n = true := h n (List.mem_cons_self _ _)
  have hr : ∀ x ∈ rest, wellFormedVersion x = true :=
    fun x hx => h x (List.mem_cons_of_mem _ hx)
  have hp := pick_strip_eq rest n n hr hn hn rfl
  simp only [latestByPackaging, latestByTuple, selectLatest, Option.map_some']
  rw [packagingKey_eq_of_wf _ hp.1, packagingKey_eq_of_wf _ hp.2.1, hp.2.2]

theorem latest_version_agrees_up_to_version_witness :
    (latestByPackaging ["2.9.1", "2.11.0", "2.11"]).map packagingKey =
      (latestByTuple ["2.9.1", "2.11.0", "2.11"]).map packagingKey :=
  latest_version_agrees_up_to_version "2.9.1" ["2.11.0", "2.11"] (by decide)

end GenerateMCD
